import Mathlib

set_option autoImplicit false

/-!
Verification of the neo4j-graphrag-python hybrid-retrieval layer.

The repository is a thin RAG helper library over a graph database.  We give a
shallow embedding of the parts the specification talks about: the query
template selector, the hybrid retrievers (their construction-time validation,
search control flow, driver-call parameter binding and row normalization), the
Cohere LLM adapter, the telemetry user-agent override, and the Qdrant/Neo4j
data-population helper `build_data_objects`.

Embedding vectors are float lists that the library only passes around and
never computes with; we model their entries as rationals.  External services
(the graph driver, the embedding SDK, the LLM SDK, the hash library) are
modelled as explicit function or data parameters; the calls made to them are
recorded in explicit traces so that claims about "exactly one query executed"
or "the embedder was never invoked" are statable.
-/

/-- Embedding vectors: float lists never computed with, entries as rationals. -/
abbrev Vec := List Rat

/-- The search-type enum selecting between plain vector and hybrid search. -/
inductive SearchType
  | vector
  | hybrid
deriving DecidableEq, Repr

/-- The three query templates the selector can choose between. -/
inductive QueryTemplateKind
  | plain
  | withReturnProperties
  | withRetrievalQuery
deriving DecidableEq, Repr

/-- Modelled from the spec: the fixed base search string of each search type
(the repository ships ready-made Cypher strings; only their selection, not
their Cypher content, is specified). -/
def base_search_string : SearchType → String
  | .vector =>
      "CALL db.index.vector.queryNodes($vector_index_name, $top_k, $query_vector) YIELD node, score"
  | .hybrid =>
      "CALL db.index.vector.queryNodes($vector_index_name, $top_k, $query_vector) YIELD node, score WITH collect(node) as nodes, max(score) AS vector_index_max_score CALL db.index.fulltext.queryNodes($fulltext_index_name, $query_text, $top_k) YIELD node, score WITH nodes, vector_index_max_score, node, score UNWIND nodes AS n RETURN n AS node, score"

/-- Which template the pair (return_properties, retrieval_query) selects: a
custom retrieval query wins, then return properties, then the plain template. -/
def selected_template (return_properties : Option (List String))
    (retrieval_query : Option String) : QueryTemplateKind :=
  match retrieval_query with
  | some _ => .withRetrievalQuery
  | none =>
    match return_properties with
    | some _ => .withReturnProperties
    | none => .plain

/-- The RETURN clause generated from a return-properties list. -/
def render_return_properties (props : List String) : String :=
  " RETURN " ++ String.intercalate ", " (props.map (fun p => "node." ++ p)) ++ " , score"

/-- Modelled from the spec: `get_search_query` from the missing module
`neo4j_genai.neo4j_queries` — "a small mapping from (search type, optional
return-properties, optional custom retrieval query) to a ready-made query
string; no query planning or optimization occurs". -/
def get_search_query (search_type : SearchType)
    (return_properties : Option (List String) := none)
    (retrieval_query : Option String := none) : String :=
  match selected_template return_properties retrieval_query with
  | .withRetrievalQuery => base_search_string search_type ++ (retrieval_query.getD "")
  | .withReturnProperties =>
      base_search_string search_type ++ render_return_properties (return_properties.getD [])
  | .plain => base_search_string search_type ++ " RETURN node, score"

/-- C4: `get_search_query` is a pure mapping: equal (search type,
return-properties, retrieval-query) inputs yield equal query strings, and
supplying a custom retrieval query selects a different template than
supplying return properties. -/
theorem get_search_query_pure_mapping
    (t t' : SearchType) (rp rp' : Option (List String)) (rq rq' : Option String)
    (ht : t = t') (hrp : rp = rp') (hrq : rq = rq') :
    get_search_query t rp rq = get_search_query t' rp' rq' ∧
      ∀ (props : List String) (q : String),
        selected_template none (some q) ≠ selected_template (some props) none := by
  subst ht; subst hrp; subst hrq
  refine ⟨rfl, ?_⟩
  intro props q
  simp [selected_template]

/-- Witness for C4 at concrete inputs. -/
theorem get_search_query_pure_mapping_witness :
    get_search_query SearchType.hybrid none none
        = get_search_query SearchType.hybrid none none ∧
      ∀ (props : List String) (q : String),
        selected_template none (some q) ≠ selected_template (some props) none :=
  get_search_query_pure_mapping SearchType.hybrid SearchType.hybrid none none none none
    rfl rfl rfl

/-- A value bound into a driver query parameter map. -/
inductive ParamValue
  | str (s : String)
  | int (n : Nat)
  | vec (v : Vec)
deriving DecidableEq, Repr

/-- A Cypher parameter map, in binding order. -/
abbrev Params := List (String × ParamValue)

/-- One call to the graph database driver: the query string and its parameters. -/
structure DriverCall where
  query : String
  parameters : Params
deriving DecidableEq, Repr

/-- A raw row returned by the driver.  The library only ever reads the node
rendering, the score, and the whole-record rendering, so those are the fields
we keep. -/
structure Neo4jRecord where
  node_str : String
  score : Rat
  record_str : String
deriving DecidableEq, Repr

/-- The metadata attached to one result item: either absent or a score map. -/
inductive ItemMetadata
  | none
  | score (s : Rat)
deriving DecidableEq, Repr

/-- A normalized result item: content plus metadata. -/
structure RetrieverResultItem where
  content : String
  metadata : ItemMetadata
deriving DecidableEq, Repr

/-- The normalized, typed result set: the item list plus a string-keyed
result-level metadata map. -/
structure RetrieverResult where
  items : List RetrieverResultItem
  metadata : List (String × String)
deriving DecidableEq, Repr

/-- The error raised when a text query arrives without an embedder. -/
structure EmbeddingRequiredError where
  message : String
deriving DecidableEq, Repr

/-- The error raised when constructor arguments fail schema validation. -/
structure RetrieverInitError where
  message : String
deriving DecidableEq, Repr

/-- A loosely typed Python constructor argument: the schema library accepts it
only when it is a string. -/
inductive PyValue
  | str (s : String)
  | int (n : Int)
deriving DecidableEq, Repr

/-- Modelled from the spec: the schema library's string check — a non-string
value for a field yields an error whose message names the field and says the
input should be a valid string. -/
def validate_str (field : String) : PyValue → Except RetrieverInitError String
  | .str s => .ok s
  | _ => .error ⟨field ++ ": Input should be a valid string"⟩

/-- What a search call did: the texts sent to the embedder, the queries sent
to the driver, and the outcome. -/
structure SearchOutcome where
  embed_calls : List String
  driver_calls : List DriverCall
  result : Except EmbeddingRequiredError RetrieverResult

/-- What a constructor call did: any driver queries it issued, and either the
constructed retriever or a validation error. -/
structure InitOutcome (R : Type) where
  driver_calls : List DriverCall
  result : Except RetrieverInitError R

/-- A hybrid retriever ready for searching.  The embedder is the external
embedding SDK, modelled as an optional query-embedding function. -/
structure HybridRetriever where
  vector_index_name : String
  fulltext_index_name : String
  embedder : Option (String → Vec)
  return_properties : Option (List String)

/-- A hybrid retriever with a custom retrieval query. -/
structure HybridCypherRetriever where
  vector_index_name : String
  fulltext_index_name : String
  retrieval_query : String
  embedder : Option (String → Vec)

/-- Modelled from the spec: HybridRetriever construction — "validates a few
input fields with a schema library"; no driver query is issued at
construction time. -/
def HybridRetriever.create (vector_index_name fulltext_index_name : PyValue)
    (embedder : Option (String → Vec) := none)
    (return_properties : Option (List String) := none) :
    InitOutcome HybridRetriever :=
  { driver_calls := []
    result := do
      let v ← validate_str "vector_index_name" vector_index_name
      let f ← validate_str "fulltext_index_name" fulltext_index_name
      pure { vector_index_name := v, fulltext_index_name := f
             embedder := embedder, return_properties := return_properties } }

/-- Modelled from the spec: HybridCypherRetriever construction, which also
validates the custom retrieval query as a string. -/
def HybridCypherRetriever.create
    (vector_index_name fulltext_index_name retrieval_query : PyValue)
    (embedder : Option (String → Vec) := none) :
    InitOutcome HybridCypherRetriever :=
  { driver_calls := []
    result := do
      let v ← validate_str "vector_index_name" vector_index_name
      let f ← validate_str "fulltext_index_name" fulltext_index_name
      let rq ← validate_str "retrieval_query" retrieval_query
      pure { vector_index_name := v, fulltext_index_name := f
             retrieval_query := rq, embedder := embedder } }

/-- The parameter map a hybrid search binds, in binding order. -/
def hybrid_search_params (vector_index_name fulltext_index_name : String)
    (top_k : Nat) (query_text : String) (query_vector : Vec) : Params :=
  [ ("vector_index_name", .str vector_index_name)
  , ("top_k", .int top_k)
  , ("query_text", .str query_text)
  , ("fulltext_index_name", .str fulltext_index_name)
  , ("query_vector", .vec query_vector) ]

/-- Modelled from the spec: query embedding happens "if needed" — a supplied
query vector is used as is; otherwise the embedder embeds the query text;
without an embedder a text-only search fails. -/
def resolve_query_vector (embedder : Option (String → Vec))
    (query_text : String) (query_vector : Option Vec) :
    Except EmbeddingRequiredError (List String × Vec) :=
  match query_vector with
  | some qv => .ok ([], qv)
  | none =>
    match embedder with
    | some embed => .ok ([query_text], embed query_text)
    | none => .error ⟨"Embedding method required for text query."⟩

/-- HybridRetriever's row formatter: the node rendering as content, the score
as metadata. -/
def hybrid_record_formatter (r : Neo4jRecord) : RetrieverResultItem :=
  { content := r.node_str, metadata := .score r.score }

/-- HybridCypherRetriever's row formatter: the whole-record rendering as
content, no metadata. -/
def hybrid_cypher_record_formatter (r : Neo4jRecord) : RetrieverResultItem :=
  { content := r.record_str, metadata := .none }

/-- Modelled from the spec: the hybrid search control flow "embed query (if
needed) → pick query template → execute against driver → normalize rows →
return result list".  `driver_rows` is what the external driver answers. -/
def HybridRetriever.search (self : HybridRetriever) (driver_rows : List Neo4jRecord)
    (query_text : String) (query_vector : Option Vec := none) (top_k : Nat := 5) :
    SearchOutcome :=
  match resolve_query_vector self.embedder query_text query_vector with
  | .error e => { embed_calls := [], driver_calls := [], result := .error e }
  | .ok (embeds, qv) =>
    let query := get_search_query .hybrid self.return_properties none
    let parameters := hybrid_search_params self.vector_index_name
      self.fulltext_index_name top_k query_text qv
    { embed_calls := embeds
      driver_calls := [{ query := query, parameters := parameters }]
      result := .ok
        { items := driver_rows.map hybrid_record_formatter
          metadata := [("__retriever", "HybridRetriever")] } }

/-- Modelled from the spec: HybridCypherRetriever search — same control flow,
with the custom retrieval query selecting the template and caller-supplied
query parameters appended to the bound parameter map. -/
def HybridCypherRetriever.search (self : HybridCypherRetriever)
    (driver_rows : List Neo4jRecord) (query_text : String)
    (query_vector : Option Vec := none) (top_k : Nat := 5)
    (query_params : Params := []) : SearchOutcome :=
  match resolve_query_vector self.embedder query_text query_vector with
  | .error e => { embed_calls := [], driver_calls := [], result := .error e }
  | .ok (embeds, qv) =>
    let query := get_search_query .hybrid none (some self.retrieval_query)
    let parameters := hybrid_search_params self.vector_index_name
      self.fulltext_index_name top_k query_text qv ++ query_params
    { embed_calls := embeds
      driver_calls := [{ query := query, parameters := parameters }]
      result := .ok
        { items := driver_rows.map hybrid_cypher_record_formatter
          metadata := [("__retriever", "HybridCypherRetriever")] } }

/-- C1: a hybrid search with a query text and a configured embedder embeds the
text, selects the hybrid query template, and calls the driver exactly once,
binding exactly vector_index_name, top_k, query_text, fulltext_index_name and
query_vector to the caller-supplied and embedded values. -/
theorem hybrid_search_text_executes_once
    (self : HybridRetriever) (embed : String → Vec)
    (rows : List Neo4jRecord) (query_text : String) (top_k : Nat)
    (hemb : self.embedder = some embed) :
    (self.search rows query_text none top_k).embed_calls = [query_text] ∧
      (self.search rows query_text none top_k).driver_calls =
        [{ query := get_search_query .hybrid self.return_properties none
           parameters :=
            [ ("vector_index_name", .str self.vector_index_name)
            , ("top_k", .int top_k)
            , ("query_text", .str query_text)
            , ("fulltext_index_name", .str self.fulltext_index_name)
            , ("query_vector", .vec (embed query_text)) ] }] := by
  simp [HybridRetriever.search, resolve_query_vector, hemb, hybrid_search_params]

/-- Witness for C1 on a concrete retriever and query. -/
theorem hybrid_search_text_executes_once_witness :
    ({ vector_index_name := "my-index", fulltext_index_name := "my-fulltext-index"
       embedder := some (fun _ => ([1] : Vec)), return_properties := none
       : HybridRetriever }.embedder = some (fun _ => ([1] : Vec))) ∧
    (({ vector_index_name := "my-index", fulltext_index_name := "my-fulltext-index"
        embedder := some (fun _ => ([1] : Vec)), return_properties := none
        : HybridRetriever }.search [] "q" none 5).embed_calls = ["q"] ∧
      (({ vector_index_name := "my-index", fulltext_index_name := "my-fulltext-index"
          embedder := some (fun _ => ([1] : Vec)), return_properties := none
          : HybridRetriever }).search [] "q" none 5).driver_calls =
        [{ query := get_search_query .hybrid none none
           parameters :=
            [ ("vector_index_name", .str "my-index")
            , ("top_k", .int 5)
            , ("query_text", .str "q")
            , ("fulltext_index_name", .str "my-fulltext-index")
            , ("query_vector", .vec ([1] : Vec)) ] }]) :=
  ⟨rfl, hybrid_search_text_executes_once _ _ [] "q" 5 rfl⟩

/-- C2: every successful search reshapes each driver row into a result item
(content plus metadata), one item per row, and the result-level metadata
records the retriever class name under the key __retriever; this holds for
both hybrid retriever classes. -/
theorem search_normalizes_rows
    (hr : HybridRetriever) (hcr : HybridCypherRetriever)
    (rows rows' : List Neo4jRecord) (qt qt' : String) (qv qv' : Option Vec)
    (k k' : Nat) (qp : Params) (res res' : RetrieverResult)
    (h : (hr.search rows qt qv k).result = .ok res)
    (h' : (hcr.search rows' qt' qv' k' qp).result = .ok res') :
    (res.items = rows.map hybrid_record_formatter ∧
      res.items.length = rows.length ∧
      res.metadata = [("__retriever", "HybridRetriever")]) ∧
    (res'.items = rows'.map hybrid_cypher_record_formatter ∧
      res'.items.length = rows'.length ∧
      res'.metadata = [("__retriever", "HybridCypherRetriever")]) := by
  constructor
  · cases hqv : resolve_query_vector hr.embedder qt qv with
    | error e => simp [HybridRetriever.search, hqv] at h
    | ok p =>
      simp [HybridRetriever.search, hqv] at h
      subst h
      simp
  · cases hqv : resolve_query_vector hcr.embedder qt' qv' with
    | error e => simp [HybridCypherRetriever.search, hqv] at h'
    | ok p =>
      simp [HybridCypherRetriever.search, hqv] at h'
      subst h'
      simp

/-- Witness for C2 on concrete retrievers, a one-row driver answer each. -/
theorem search_normalizes_rows_witness :
    ({ items := [{ content := "dummy-node", metadata := .score 1 }]
       metadata := [("__retriever", "HybridRetriever")] : RetrieverResult }.items
          = [⟨"dummy-node", 1, "rec"⟩].map hybrid_record_formatter ∧
      ({ items := [{ content := "dummy-node", metadata := .score 1 }]
         metadata := [("__retriever", "HybridRetriever")] : RetrieverResult }).items.length
          = [(⟨"dummy-node", 1, "rec"⟩ : Neo4jRecord)].length ∧
      ({ items := [{ content := "dummy-node", metadata := .score 1 }]
         metadata := [("__retriever", "HybridRetriever")] : RetrieverResult }).metadata
          = [("__retriever", "HybridRetriever")]) ∧
    ({ items := [{ content := "rec", metadata := .none }]
       metadata := [("__retriever", "HybridCypherRetriever")] : RetrieverResult }.items
          = [⟨"dummy-node", 1, "rec"⟩].map hybrid_cypher_record_formatter ∧
      ({ items := [{ content := "rec", metadata := .none }]
         metadata := [("__retriever", "HybridCypherRetriever")] : RetrieverResult }).items.length
          = [(⟨"dummy-node", 1, "rec"⟩ : Neo4jRecord)].length ∧
      ({ items := [{ content := "rec", metadata := .none }]
         metadata := [("__retriever", "HybridCypherRetriever")] : RetrieverResult }).metadata
          = [("__retriever", "HybridCypherRetriever")]) :=
  search_normalizes_rows
    ({ vector_index_name := "v", fulltext_index_name := "f"
       embedder := none, return_properties := none : HybridRetriever })
    ({ vector_index_name := "v", fulltext_index_name := "f"
       retrieval_query := "RETURN 1", embedder := none : HybridCypherRetriever })
    [⟨"dummy-node", 1, "rec"⟩] [⟨"dummy-node", 1, "rec"⟩]
    "q" "q" (some [2]) (some [2]) 5 5 [] _ _ rfl rfl

/-- C3: query embedding happens only if needed — a caller-supplied query
vector suppresses the embedder entirely and is itself bound into the driver
query, while a text-only call with an embedder embeds that text exactly once. -/
theorem hybrid_search_embedding_only_if_needed
    (r₁ r₂ : HybridRetriever) (rows₁ rows₂ : List Neo4jRecord)
    (t₁ t₂ : String) (qv : Vec) (k₁ k₂ : Nat) (embed : String → Vec)
    (hemb : r₂.embedder = some embed) :
    ((r₁.search rows₁ t₁ (some qv) k₁).embed_calls = [] ∧
      (r₁.search rows₁ t₁ (some qv) k₁).driver_calls.map (fun c => c.parameters) =
        [hybrid_search_params r₁.vector_index_name r₁.fulltext_index_name k₁ t₁ qv]) ∧
    (r₂.search rows₂ t₂ none k₂).embed_calls = [t₂] := by
  refine ⟨⟨?_, ?_⟩, ?_⟩
  · simp [HybridRetriever.search, resolve_query_vector]
  · simp [HybridRetriever.search, resolve_query_vector]
  · simp [HybridRetriever.search, resolve_query_vector, hemb]

/-- Witness for C3 on a concrete retriever, with a caller-supplied vector on
one call and only text on the other. -/
theorem hybrid_search_embedding_only_if_needed_witness :
    ({ vector_index_name := "v", fulltext_index_name := "f"
       embedder := some (fun _ => ([1] : Vec)), return_properties := none
       : HybridRetriever }.embedder = some (fun _ => ([1] : Vec))) ∧
    ((({ vector_index_name := "v", fulltext_index_name := "f"
         embedder := some (fun _ => ([1] : Vec)), return_properties := none
         : HybridRetriever }.search [] "q" (some [2]) 5).embed_calls = [] ∧
      ({ vector_index_name := "v", fulltext_index_name := "f"
         embedder := some (fun _ => ([1] : Vec)), return_properties := none
         : HybridRetriever }.search [] "q" (some [2]) 5).driver_calls.map
          (fun c => c.parameters) = [hybrid_search_params "v" "f" 5 "q" [2]]) ∧
      ({ vector_index_name := "v", fulltext_index_name := "f"
         embedder := some (fun _ => ([1] : Vec)), return_properties := none
         : HybridRetriever }.search [] "q" none 5).embed_calls = ["q"]) :=
  ⟨rfl, hybrid_search_embedding_only_if_needed _ _ [] [] "q" "q" [2] 5 5 _ rfl⟩

/-- C5: constructing a HybridRetriever with a non-string fulltext_index_name,
or a HybridCypherRetriever with a non-string retrieval_query, yields a
validation error whose message names the offending field, and no driver query
is executed; with valid string arguments construction succeeds. -/
theorem retriever_init_validation (v f rq : String) (n₁ n₂ : Int) :
    ((HybridRetriever.create (.str v) (.int n₁)).result
        = .error ⟨"fulltext_index_name: Input should be a valid string"⟩ ∧
      (HybridRetriever.create (.str v) (.int n₁)).driver_calls = []) ∧
    ((HybridCypherRetriever.create (.str v) (.str f) (.int n₂)).result
        = .error ⟨"retrieval_query: Input should be a valid string"⟩ ∧
      (HybridCypherRetriever.create (.str v) (.str f) (.int n₂)).driver_calls = []) ∧
    (∃ r, (HybridRetriever.create (.str v) (.str f)).result = .ok r) ∧
    (∃ r, (HybridCypherRetriever.create (.str v) (.str f) (.str rq)).result = .ok r) := by
  refine ⟨⟨rfl, rfl⟩, ⟨rfl, rfl⟩, ⟨_, rfl⟩, ⟨_, rfl⟩⟩

/-- C6: a search that supplies only query text on a retriever with no
embedder raises the embedding-required error and executes no driver query. -/
theorem hybrid_search_requires_embedder
    (self : HybridRetriever) (rows : List Neo4jRecord) (qt : String) (k : Nat)
    (h : self.embedder = none) :
    (self.search rows qt none k).result
        = .error ⟨"Embedding method required for text query."⟩ ∧
      (self.search rows qt none k).driver_calls = [] := by
  simp [HybridRetriever.search, resolve_query_vector, h]

/-- Witness for C6 on a concrete embedder-less retriever. -/
theorem hybrid_search_requires_embedder_witness :
    ({ vector_index_name := "v", fulltext_index_name := "f"
       embedder := none, return_properties := none
       : HybridRetriever }.embedder = none) ∧
    (({ vector_index_name := "v", fulltext_index_name := "f"
        embedder := none, return_properties := none
        : HybridRetriever }.search [] "may thy knife chip and shatter" none 5).result
        = .error ⟨"Embedding method required for text query."⟩ ∧
      ({ vector_index_name := "v", fulltext_index_name := "f"
         embedder := none, return_properties := none
         : HybridRetriever }.search [] "may thy knife chip and shatter" none 5).driver_calls
        = []) :=
  ⟨rfl, hybrid_search_requires_embedder _ [] "may thy knife chip and shatter" 5 rfl⟩

/-- One chat message: a role and its content. -/
structure ChatMessage where
  role : String
  content : String
deriving DecidableEq, Repr

/-- The response the LLM adapter returns on success. -/
structure LLMResponse where
  content : String
deriving DecidableEq, Repr

/-- The error the LLM adapter raises. -/
structure LLMGenerationError where
  message : String
deriving DecidableEq, Repr

/-- What one call to the external Cohere SDK chat endpoint can produce: a
response text, or the SDK api error. -/
inductive CohereChatResult
  | ok (text : String)
  | apiError
deriving DecidableEq, Repr

/-- The Cohere LLM adapter configuration. -/
structure CohereLLM where
  model_name : String
  system_instruction : Option String := none

/-- The roles the message-history schema accepts. -/
def valid_role (r : String) : Bool :=
  r == "user" || r == "assistant" || r == "system"

/-- Modelled from the spec: the message list the adapter builds for the SDK —
an optional leading system message, then the message history unchanged, then
one user message carrying the question; history entries with a role outside
user/assistant/system fail schema validation. -/
def get_messages (question : String) (message_history : List ChatMessage)
    (system_instruction : Option String) :
    Except LLMGenerationError (List ChatMessage) :=
  if message_history.all (fun m => valid_role m.role) then
    .ok ((match system_instruction with
          | some si => [{ role := "system", content := si }]
          | none => []) ++
      message_history ++ [{ role := "user", content := question }])
  else
    .error ⟨"Input should be user, assistant or system: invalid role in message history"⟩

/-- What an invoke call did: the message lists sent to the SDK chat call, and
the outcome. -/
structure InvokeOutcome where
  chat_calls : List (List ChatMessage)
  result : Except LLMGenerationError LLMResponse

/-- Modelled from the spec: CohereLLM.invoke — build the message list, send it
to the SDK chat endpoint (`chat`, the external SDK), translate an SDK api
error into a generation error, and wrap the response text on success. -/
def CohereLLM.invoke (_self : CohereLLM) (chat : List ChatMessage → CohereChatResult)
    (question : String) (message_history : List ChatMessage := [])
    (system_instruction : Option String := none) : InvokeOutcome :=
  match get_messages question message_history system_instruction with
  | .error e => { chat_calls := [], result := .error e }
  | .ok msgs =>
    match chat msgs with
    | .ok text => { chat_calls := [msgs], result := .ok { content := text } }
    | .apiError => { chat_calls := [msgs], result := .error ⟨"ApiError"⟩ }

/-- Modelled from the spec: CohereLLM.ainvoke — the async variant runs the
same message building, SDK call and error translation as the sync one (only
the SDK client object differs, which the embedding abstracts as `chat`). -/
def CohereLLM.ainvoke (self : CohereLLM) (chat : List ChatMessage → CohereChatResult)
    (question : String) (message_history : List ChatMessage := [])
    (system_instruction : Option String := none) : InvokeOutcome :=
  self.invoke chat question message_history system_instruction

/-- C7: an invoke with a question, a valid message history and a system
instruction sends the SDK exactly one message list — the system message, then
the history unchanged and in order, then one user message with the question —
and on SDK success the returned response content equals the SDK response
text. -/
theorem cohere_invoke_message_order
    (self : CohereLLM) (chat : List ChatMessage → CohereChatResult)
    (question si text : String) (message_history : List ChatMessage)
    (hvalid : message_history.all (fun m => valid_role m.role) = true)
    (hchat : chat ({ role := "system", content := si } ::
        (message_history ++ [{ role := "user", content := question }])) = .ok text) :
    (self.invoke chat question message_history (some si)).chat_calls =
        [{ role := "system", content := si } ::
          (message_history ++ [{ role := "user", content := question }])] ∧
      (self.invoke chat question message_history (some si)).result =
        .ok { content := text } := by
  simp [CohereLLM.invoke, get_messages, hvalid, hchat]

/-- Witness for C7 on the concrete history and question of the unit test. -/
theorem cohere_invoke_message_order_witness :
    ([({ role := "user", content := "When does the sun come up in the summer?" }
       : ChatMessage)
     , { role := "assistant", content := "Usually around 6am." }].all
        (fun m => valid_role m.role) = true) ∧
    ((fun _ => CohereChatResult.ok "cohere response text")
        ({ role := "system", content := "You are a helpful assistant." } ::
          ([({ role := "user", content := "When does the sun come up in the summer?" }
             : ChatMessage)
           , { role := "assistant", content := "Usually around 6am." }] ++
            [{ role := "user", content := "What about next season?" }]))
        = .ok "cohere response text") ∧
    (({ model_name := "something" : CohereLLM }.invoke
        (fun _ => CohereChatResult.ok "cohere response text")
        "What about next season?"
        [{ role := "user", content := "When does the sun come up in the summer?" }
         , { role := "assistant", content := "Usually around 6am." }]
        (some "You are a helpful assistant.")).chat_calls =
      [{ role := "system", content := "You are a helpful assistant." } ::
        ([({ role := "user", content := "When does the sun come up in the summer?" }
           : ChatMessage)
         , { role := "assistant", content := "Usually around 6am." }] ++
          [{ role := "user", content := "What about next season?" }])] ∧
      ({ model_name := "something" : CohereLLM }.invoke
        (fun _ => CohereChatResult.ok "cohere response text")
        "What about next season?"
        [{ role := "user", content := "When does the sun come up in the summer?" }
         , { role := "assistant", content := "Usually around 6am." }]
        (some "You are a helpful assistant.")).result =
        .ok { content := "cohere response text" }) :=
  ⟨by decide, rfl,
    cohere_invoke_message_order { model_name := "something" }
      (fun _ => CohereChatResult.ok "cohere response text")
      "What about next season?" "You are a helpful assistant." "cohere response text"
      [{ role := "user", content := "When does the sun come up in the summer?" }
       , { role := "assistant", content := "Usually around 6am." }]
      (by decide) rfl⟩

/-- A decidable test for whether an Except value is an error. -/
def except_is_error {ε α : Type} : Except ε α → Bool
  | .error _ => true
  | .ok _ => false

/-- C8: invoke and ainvoke fail exactly when a history entry has a role
outside user/assistant/system or the SDK call raises its api error; on
success they return an LLMResponse (an ok result). -/
theorem cohere_invoke_error_iff
    (self : CohereLLM) (chat : List ChatMessage → CohereChatResult)
    (question : String) (message_history : List ChatMessage)
    (system_instruction : Option String) :
    (except_is_error (self.invoke chat question message_history system_instruction).result
        = true ↔
      (message_history.all (fun m => valid_role m.role) = false ∨
        (message_history.all (fun m => valid_role m.role) = true ∧
          ∀ msgs, get_messages question message_history system_instruction = .ok msgs →
            chat msgs = .apiError))) ∧
    (self.ainvoke chat question message_history system_instruction).result =
      (self.invoke chat question message_history system_instruction).result := by
  refine ⟨?_, rfl⟩
  cases hmsgs : get_messages question message_history system_instruction with
  | error e =>
    have hvalid : message_history.all (fun m => valid_role m.role) = false := by
      by_contra hv
      simp only [Bool.not_eq_false] at hv
      simp [get_messages, hv] at hmsgs
    simp [CohereLLM.invoke, hmsgs, except_is_error, hvalid]
  | ok msgs =>
    have hvalid : message_history.all (fun m => valid_role m.role) = true := by
      by_contra hv
      simp only [Bool.not_eq_true] at hv
      simp [get_messages, hv] at hmsgs
    cases hchat : chat msgs with
    | ok text =>
      simp [CohereLLM.invoke, hmsgs, hchat, except_is_error, hvalid]
    | apiError =>
      simp [CohereLLM.invoke, hmsgs, hchat, except_is_error, hvalid]

/-- The neo4j driver pool configuration: the user_agent field the telemetry
override touches, plus the remaining configuration fields, opaque here. -/
structure PoolConfig (A : Type) where
  user_agent : String
  rest : A

/-- The driver connection pool: its configuration plus its remaining state. -/
structure Pool (A B : Type) where
  pool_config : PoolConfig A
  rest : B

/-- The neo4j driver: its pool plus every other part of the driver. -/
structure Driver (A B C : Type) where
  pool : Pool A B
  rest : C

/-- `override_user_agent` (src/neo4j_graphrag/utils/telemetry.py): assigns
`driver._pool.pool_config.user_agent` the string "neo4j-graphrag-python/v"
followed by the package version and returns the driver.  The version string
is a parameter; the package metadata lives outside this module. -/
def override_user_agent {A B C : Type} (version : String) (driver : Driver A B C) :
    Driver A B C :=
  { driver with
      pool := { driver.pool with
        pool_config := { driver.pool.pool_config with
          user_agent := "neo4j-graphrag-python/v" ++ version } } }

/-- C9: override_user_agent returns the given driver with only the pool
configuration's user_agent field changed — to "neo4j-graphrag-python/v"
followed by the package version — leaving the rest of the pool configuration,
the rest of the pool, and every other part of the driver unchanged. -/
theorem override_user_agent_frame {A B C : Type} (version : String) (d : Driver A B C) :
    (override_user_agent version d).pool.pool_config.user_agent
        = "neo4j-graphrag-python/v" ++ version ∧
      (override_user_agent version d).pool.pool_config.rest = d.pool.pool_config.rest ∧
      (override_user_agent version d).pool.rest = d.pool.rest ∧
      (override_user_agent version d).rest = d.rest :=
  ⟨rfl, rfl, rfl, rfl⟩

/-- One record of the Jeopardy input data set: the fields build_data_objects
reads (question, answer, category and the precomputed embedding vector). -/
structure JeopardyRecord where
  question : String
  answer : String
  category : String
  vector : Vec
deriving DecidableEq, Repr

/-- The properties stored on a Question node; the vector property is present
only in neo4j vector format. -/
structure QuestionProps where
  id : String
  question : String
  vector : Option Vec
deriving DecidableEq, Repr

/-- A node object destined for Neo4j. -/
inductive Neo4jObj
  | category (name id : String)
  | question (props : QuestionProps)
  | answer (id answer : String)
deriving DecidableEq, Repr

/-- A relationship object destined for Neo4j. -/
structure Relationship where
  start_node_id : String
  end_node_id : String
  rel_type : String
deriving DecidableEq, Repr

/-- A Qdrant point: its numeric id, the neo4j_id link in its payload, and its
vector. -/
structure PointStruct where
  id : Nat
  neo4j_id : String
  vector : Vec
deriving DecidableEq, Repr

/-- The q_vector_fmt argument of build_data_objects. -/
inductive QVectorFmt
  | neo4j
  | qdrant
deriving DecidableEq, Repr

/-- The per-record loop of build_data_objects
(examples/customize/retrievers/external/qdrant/populate_dbs.py): for the
record at enumerate index `i`, a Question node (vector property only in neo4j
format), an Answer node, HAS_ANSWER and BELONGS_TO relationships, and in
qdrant format a PointStruct whose payload links back to the Question node id.
`md5_hexdigest` is the external hashlib md5-hexdigest call. -/
def build_record_objs (md5_hexdigest : String → String) (fmt : QVectorFmt) :
    Nat → List JeopardyRecord → List Neo4jObj × List Relationship × List PointStruct
  | _, [] => ([], [], [])
  | i, d :: rest =>
    let id_ := md5_hexdigest d.question
    let qnode : Neo4jObj := .question
      { id := "question_" ++ id_
        question := d.question
        vector := if fmt = .neo4j then some d.vector else none }
    let anode : Neo4jObj := .answer ("answer_" ++ id_) d.answer
    let r₁ : Relationship :=
      { start_node_id := "question_" ++ id_, end_node_id := "answer_" ++ id_
        rel_type := "HAS_ANSWER" }
    let r₂ : Relationship :=
      { start_node_id := "question_" ++ id_, end_node_id := d.category
        rel_type := "BELONGS_TO" }
    let pts : List PointStruct :=
      if fmt = .qdrant then
        [{ id := i, neo4j_id := "question_" ++ id_, vector := d.vector }]
      else []
    let rest' := build_record_objs md5_hexdigest fmt (i + 1) rest
    (qnode :: anode :: rest'.1, r₁ :: r₂ :: rest'.2.1, pts ++ rest'.2.2)

/-- build_data_objects over an explicit data list: category nodes for the
distinct categories first, then the per-record nodes, relationships and
points of the enumerate loop starting at index 0. -/
def build_data_objects (md5_hexdigest : String → String)
    (data : List JeopardyRecord) (fmt : QVectorFmt) :
    (List Neo4jObj × List Relationship) × List PointStruct :=
  let cats := ((data.map (fun d => d.category)).dedup).map
    (fun c => Neo4jObj.category c c)
  let built := build_record_objs md5_hexdigest fmt 0 data
  ((cats ++ built.1, built.2.1), built.2.2)

/-- The Question-node properties carried by a node object, when it is one. -/
def question_props_of : Neo4jObj → Option QuestionProps
  | .question p => some p
  | _ => none

/-- The Question nodes of a node-object list, in order. -/
def question_nodes (objs : List Neo4jObj) : List QuestionProps :=
  objs.filterMap question_props_of

theorem question_nodes_categories (cs : List String) :
    question_nodes (cs.map (fun c => Neo4jObj.category c c)) = [] := by
  induction cs with
  | nil => rfl
  | cons c rest _ih =>
    simp [question_nodes, question_props_of]

theorem build_record_objs_question_nodes (md5_hexdigest : String → String)
    (fmt : QVectorFmt) (data : List JeopardyRecord) :
    ∀ i : Nat, question_nodes (build_record_objs md5_hexdigest fmt i data).1
      = data.map (fun d =>
          { id := "question_" ++ md5_hexdigest d.question
            question := d.question
            vector := if fmt = .neo4j then some d.vector else none }) := by
  induction data with
  | nil => intro i; rfl
  | cons d rest ih =>
    intro i
    simp [build_record_objs, question_nodes, question_props_of] at ih ⊢
    exact ih (i + 1)

theorem build_record_objs_points_neo4j (md5_hexdigest : String → String)
    (data : List JeopardyRecord) :
    ∀ i : Nat, (build_record_objs md5_hexdigest .neo4j i data).2.2 = [] := by
  induction data with
  | nil => intro i; rfl
  | cons d rest ih =>
    intro i
    simp [build_record_objs]
    exact ih (i + 1)

theorem build_record_objs_points_qdrant (md5_hexdigest : String → String)
    (data : List JeopardyRecord) :
    ∀ i : Nat, (build_record_objs md5_hexdigest .qdrant i data).2.2.map
        (fun p => p.neo4j_id)
      = data.map (fun d => "question_" ++ md5_hexdigest d.question) := by
  induction data with
  | nil => intro i; rfl
  | cons d rest ih =>
    intro i
    simp [build_record_objs]
    exact ih (i + 1)

theorem question_nodes_append (a b : List Neo4jObj) :
    question_nodes (a ++ b) = question_nodes a ++ question_nodes b := by
  simp [question_nodes]

theorem build_data_objects_question_nodes (md5_hexdigest : String → String)
    (data : List JeopardyRecord) (fmt : QVectorFmt) :
    question_nodes (build_data_objects md5_hexdigest data fmt).1.1
      = data.map (fun d =>
          { id := "question_" ++ md5_hexdigest d.question
            question := d.question
            vector := if fmt = .neo4j then some d.vector else none }) := by
  show question_nodes
      (((data.map (fun d => d.category)).dedup).map (fun c => Neo4jObj.category c c)
        ++ (build_record_objs md5_hexdigest fmt 0 data).1) = _
  rw [question_nodes_append, question_nodes_categories,
    build_record_objs_question_nodes md5_hexdigest fmt data 0]
  simp

/-- C10: build_data_objects keeps the two representations linked.  In qdrant
format the point payloads' neo4j_id sequence and the Question-node id
sequence are both "question_" followed by the hex digest of each record's
question text — so the i-th point links the Question node of the i-th
record — and no Question node carries a vector property.  In neo4j format no
points are produced and every Question node carries its record's vector. -/
theorem build_data_objects_linked (md5_hexdigest : String → String)
    (data : List JeopardyRecord) :
    ((build_data_objects md5_hexdigest data .qdrant).2.map (fun p => p.neo4j_id)
        = data.map (fun d => "question_" ++ md5_hexdigest d.question) ∧
      (question_nodes (build_data_objects md5_hexdigest data .qdrant).1.1).map
          (fun p => p.id)
        = data.map (fun d => "question_" ++ md5_hexdigest d.question) ∧
      (question_nodes (build_data_objects md5_hexdigest data .qdrant).1.1).all
          (fun p => p.vector.isNone) = true) ∧
    ((build_data_objects md5_hexdigest data .neo4j).2 = [] ∧
      question_nodes (build_data_objects md5_hexdigest data .neo4j).1.1
        = data.map (fun d =>
            { id := "question_" ++ md5_hexdigest d.question
              question := d.question
              vector := some d.vector })) := by
  refine ⟨⟨?_, ?_, ?_⟩, ?_, ?_⟩
  · simpa [build_data_objects] using
      build_record_objs_points_qdrant md5_hexdigest data 0
  · rw [build_data_objects_question_nodes md5_hexdigest data .qdrant]
    simp
  · rw [build_data_objects_question_nodes md5_hexdigest data .qdrant]
    simp [List.all_eq_true]
  · simpa [build_data_objects] using
      build_record_objs_points_neo4j md5_hexdigest data 0
  · rw [build_data_objects_question_nodes md5_hexdigest data .neo4j]
    simp
